import Mathlib

/-!
Verification of ClauseGuard: a shallow embedding of the presence-gated
screen recorder (`src/screen.py`) and the transcription/summarization
worker (`src/transcribe_summary.py`), with theorems settling the spec's
claims against the code.

Conventions of the embedding:
* Timestamps are exact rationals (seconds), standing for the Python
  `time.time()` floats; the source's comparison
  `(now - start) * 1000 >= threshold_ms` is kept literally.
* External effects (process liveness, HTTP responses, transcription
  output) are inputs to the embedded functions, so every behaviour of the
  environment is quantified over.
* Python exceptions become `Except`/sum-type results; `SystemExit`,
  `subprocess.CalledProcessError`, `httpx` errors and generic exceptions
  are distinguished because `main`'s `except` arms dispatch on them.
-/

/-! ## Hysteresis gate (src/screen.py, main loop lines 297-366)

The per-sample state of the recording controller: `away` is
`away_start`, `back` is `back_start`, `recording` is `recording`.
-/

structure GateState where
  away : Option ℚ
  back : Option ℚ
  recording : Bool
deriving DecidableEq

/-- Outcome of one loop iteration of `main`'s state machine:
`startRequested` = ffmpeg started and `recording = True` was set;
`startFailed` = `start_ffmpeg_record` raised (the source then `break`s);
`stopRequested` = recording stopped (the source then `break`s). -/
inductive GateEvent
  | noEvent
  | startRequested
  | startFailed
  | stopRequested
deriving DecidableEq

/-- Initial state of `main`: `away_start = None`, `back_start = None`,
`recording = False` (src/screen.py lines 297-299). -/
def gateInit : GateState := ⟨none, none, false⟩

/-- One per-sample update of the hysteresis state machine
(src/screen.py lines 332-366).  `present` is `in_frame`, `now` is the
sample timestamp in seconds, `minAwayMs`/`minBackMs` are
`args.min_away_ms`/`args.return_ms`.  `startOk` tells whether
`start_ffmpeg_record` would succeed at this moment (it is an external
effect).  Mirrors the source exactly: on an absent sample `back_start`
is cleared first; while idle the away timer is armed and, once
`(now - away_start) * 1000 >= min_away_ms`, recording starts — note the
source does NOT clear `away_start` on this transition.  On a present
sample `away_start` is cleared first; while recording the back timer is
armed and, once `(now - back_start) * 1000 >= return_ms`, recording
stops — the source does not clear `back_start` on this transition. -/
def gateStep (minAwayMs minBackMs : ℚ) (startOk : Bool) (s : GateState)
    (present : Bool) (now : ℚ) : GateState × GateEvent :=
  if present = false then
    let s1 : GateState := { s with back := none }
    if s1.recording = false then
      match s1.away with
      | none => ({ s1 with away := some now }, GateEvent.noEvent)
      | some a =>
        if (now - a) * 1000 ≥ minAwayMs then
          if startOk then ({ s1 with recording := true }, GateEvent.startRequested)
          else (s1, GateEvent.startFailed)
        else (s1, GateEvent.noEvent)
    else (s1, GateEvent.noEvent)
  else
    let s1 : GateState := { s with away := none }
    if s1.recording = true then
      match s1.back with
      | none => ({ s1 with back := some now }, GateEvent.noEvent)
      | some b =>
        if (now - b) * 1000 ≥ minBackMs then
          ({ s1 with recording := false }, GateEvent.stopRequested)
        else (s1, GateEvent.noEvent)
    else (s1, GateEvent.noEvent)

/-- The stream of per-iteration events produced by running the state
machine over a list of `(present, timestamp)` samples.  This is the
uninterrupted run of the state machine; the source loop additionally
exits after a `startFailed` or `stopRequested` event (`loopRun` models
that exit). -/
def gateEvents (mA mB : ℚ) (ok : Bool) : GateState → List (Bool × ℚ) → List GateEvent
  | _, [] => []
  | s, (p, t) :: rest =>
    (gateStep mA mB ok s p t).2 :: gateEvents mA mB ok (gateStep mA mB ok s p t).1 rest

/-- The source's `while True` loop over a list of samples, including its
`break` statements: on `startFailed` (src/screen.py line 355) and on
`stopRequested` (line 366) the loop exits.  Returns the final state and
the number of samples actually consumed before the loop exited. -/
def loopRun (mA mB : ℚ) (ok : Bool) : GateState → List (Bool × ℚ) → GateState × ℕ
  | s, [] => (s, 0)
  | s, (p, t) :: rest =>
    let r := gateStep mA mB ok s p t
    match r.2 with
    | GateEvent.startFailed => (r.1, 1)
    | GateEvent.stopRequested => (r.1, 1)
    | _ =>
      let c := loopRun mA mB ok r.1 rest
      (c.1, c.2 + 1)

/-- The spec's end-to-end scenario: 20 absent samples at 50 ms spacing
starting at t = 0, then 25 present samples at 50 ms spacing starting at
t = 1 s. -/
def scenarioSamples : List (Bool × ℚ) :=
  (List.range 20).map (fun k => (false, (k : ℚ) / 20)) ++
    (List.range 25).map (fun k => (true, 1 + (k : ℚ) / 20))

/-- The claimed gate-state invariant (spec §3 GateState): at most one of
`awaySince`/`backSince` is non-null, and `isRecording` implies
`awaySince` is null. -/
def gateInv (s : GateState) : Prop :=
  (s.away = none ∨ s.back = none) ∧ (s.recording = true → s.away = none)

/-- Invariant tying a non-null `away_start` to the processed history:
whenever `away = some a`, the history ends in a nonempty run of absent
samples whose first sample carries timestamp `a`. -/
def AwaySuffix (hist : List (Bool × ℚ)) (s : GateState) : Prop :=
  ∀ a, s.away = some a →
    ∃ ys zs, hist = ys ++ zs ∧ zs.head? = some (false, a) ∧ ∀ x ∈ zs, x.1 = false

/-- Invariant tying a non-null `back_start` to the processed history:
whenever `back = some b`, the history ends in a nonempty run of present
samples whose first sample carries timestamp `b`. -/
def BackSuffix (hist : List (Bool × ℚ)) (s : GateState) : Prop :=
  ∀ b, s.back = some b →
    ∃ ys zs, hist = ys ++ zs ∧ zs.head? = some (true, b) ∧ ∀ x ∈ zs, x.1 = true

/-- The sample list ends in a continuous run of absent samples spanning
at least `mA` milliseconds (first to last timestamp of the run). -/
def AbsentRunEnding (mA : ℚ) (pre : List (Bool × ℚ)) : Prop :=
  ∃ ys zs a t, pre = ys ++ zs ∧ zs.head? = some (false, a) ∧
    (∀ x ∈ zs, x.1 = false) ∧ zs.getLast? = some (false, t) ∧ (t - a) * 1000 ≥ mA

/-- The sample list ends in a continuous run of present samples spanning
at least `mB` milliseconds (first to last timestamp of the run). -/
def PresentRunEnding (mB : ℚ) (pre : List (Bool × ℚ)) : Prop :=
  ∃ ys zs b t, pre = ys ++ zs ∧ zs.head? = some (true, b) ∧
    (∀ x ∈ zs, x.1 = true) ∧ zs.getLast? = some (true, t) ∧ (t - b) * 1000 ≥ mB

/-! ## Capture start with fallback (src/screen.py, start_ffmpeg_record lines 155-218) -/

/-- The two Windows capture backends accepted by `--video-mode`
(src/screen.py line 249). -/
inductive VideoMode
  | gdigrab
  | ddagrab
deriving DecidableEq

/-- The alternate backend: `other = "ddagrab" if video_mode == "gdigrab"
else "gdigrab"` (src/screen.py line 182). -/
def otherMode : VideoMode → VideoMode
  | VideoMode.gdigrab => VideoMode.ddagrab
  | VideoMode.ddagrab => VideoMode.gdigrab

/-- The attempt list built by `start_ffmpeg_record`
(src/screen.py lines 177-184): requested backend with audio, requested
backend video-only, alternate backend with audio, alternate backend
video-only. -/
def captureAttempts (video_mode : VideoMode) : List (VideoMode × Bool) :=
  [(video_mode, true), (video_mode, false),
    (otherMode video_mode, true), (otherMode video_mode, false)]

/-- The attempt loop of `start_ffmpeg_record` (src/screen.py lines
187-218).  `alive a = true` means the process spawned for attempt `a` is
still running when polled after the fixed 0.8 s grace sleep; the loop
returns the first such attempt, else moves on.  Result: the list of
attempts actually launched, and the winning attempt (`none` models the
final `raise last_err` when every attempt exited during the grace
window). -/
def tryAttempts (alive : VideoMode × Bool → Bool) :
    List (VideoMode × Bool) → List (VideoMode × Bool) × Option (VideoMode × Bool)
  | [] => ([], none)
  | a :: rest =>
    if alive a then ([a], some a)
    else
      let r := tryAttempts alive rest
      (a :: r.1, r.2)

/-- `start_ffmpeg_record`, abstracted over process liveness.  Returns
the launched attempts in order and the winner (if any). -/
def start_ffmpeg_record (alive : VideoMode × Bool → Bool) (video_mode : VideoMode) :
    List (VideoMode × Bool) × Option (VideoMode × Bool) :=
  tryAttempts alive (captureAttempts video_mode)

/-! ## Model client (src/transcribe_summary.py, ModelClient lines 74-184) -/

/-- The transport-level `httpx` exceptions retried by
`_post_with_retries` (src/transcribe_summary.py line 122). -/
inductive TransportErr
  | connectTimeout
  | readTimeout
  | writeTimeout
  | connectError
deriving DecidableEq

/-- Abstraction of an `httpx.Response`: its status code, whether its
body parses as JSON, and the JSON field `textResponse` (if present). -/
structure HttpResponse where
  status : ℕ
  jsonOk : Bool
  textResponse : Option String
deriving DecidableEq

/-- Outcome of one `self.client.post(...)` call: either a transport
exception or a response (any status). -/
inductive PostOutcome
  | transport (e : TransportErr)
  | response (r : HttpResponse)

/-- What `_post_with_retries` raises once the attempt loop is
exhausted: `raise last_err or RuntimeError("Unknown HTTP failure")`
(src/transcribe_summary.py line 127). -/
inductive RetryExhausted
  | transport (e : TransportErr)
  | unknownFailure
deriving DecidableEq

/-- The `for attempt in range(1, max_retries + 1)` loop of
`_post_with_retries` (src/transcribe_summary.py lines 117-127).
`net k` is the outcome of the POST issued on attempt `k`.  Counts the
POSTs issued, records the backoff sleeps `min(2 ** attempt, 8)`
performed after each failed attempt, and returns the response or the
final raise.  Structured over the fuel `remaining = number of attempts
left`; `attempt` is the 1-based attempt counter and `last` is
`last_err`. -/
def retryLoop (net : ℕ → PostOutcome) :
    ℕ → ℕ → Option TransportErr → ℕ × List ℕ × Except RetryExhausted HttpResponse
  | 0, _, last =>
    (0, [], Except.error
      (match last with
        | some e => RetryExhausted.transport e
        | none => RetryExhausted.unknownFailure))
  | remaining + 1, attempt, _ =>
    match net attempt with
    | PostOutcome.response r => (1, [], Except.ok r)
    | PostOutcome.transport e =>
      let rest := retryLoop net remaining (attempt + 1) (some e)
      (rest.1 + 1, min (2 ^ attempt) 8 :: rest.2.1, rest.2.2)

/-- `ModelClient._post_with_retries` with its `max_retries = 3`
default: attempts start at 1, `last_err` starts as `None`. -/
def post_with_retries (net : ℕ → PostOutcome) (max_retries : ℕ) :
    ℕ × List ℕ × Except RetryExhausted HttpResponse :=
  retryLoop net max_retries 1 none

/-- Failure modes of `ModelClient.summarize_blocking`
(src/transcribe_summary.py lines 129-146): a non-2xx status raises
`SystemExit` via `raise_for_status` (never retried), a non-JSON body
raises `SystemExit` (never retried), and an exhausted retry loop
re-raises the last transport error. -/
inductive SummarizeError
  | httpStatus (status : ℕ)
  | nonJson
  | exhausted (e : RetryExhausted)
deriving DecidableEq

/-- `ModelClient.summarize_blocking` (src/transcribe_summary.py lines
129-146): one `_post_with_retries` call, then `raise_for_status`
(raises for any status >= 400), then JSON decoding, then
`(payload.get("textResponse") or "").strip()`.  Returns the POST count,
the backoff sleeps performed, and the result. -/
def summarize_blocking (net : ℕ → PostOutcome) :
    ℕ × List ℕ × Except SummarizeError String :=
  let r := post_with_retries net 3
  match r.2.2 with
  | Except.error e => (r.1, r.2.1, Except.error (SummarizeError.exhausted e))
  | Except.ok resp =>
    if 400 ≤ resp.status then (r.1, r.2.1, Except.error (SummarizeError.httpStatus resp.status))
    else if resp.jsonOk = false then (r.1, r.2.1, Except.error SummarizeError.nonJson)
    else (r.1, r.2.1, Except.ok ((resp.textResponse.getD "").trim))

/-- The chunks visited by `for i in range(0, len(transcript),
chunk_chars)` with slices `transcript[i:i + chunk_chars]`
(src/transcribe_summary.py lines 156-157), on the transcript's
character list.  Requires `chunk_chars ≥ 1` to be meaningful (Python's
`range` rejects step 0); for `chunk_chars ≥ 1`,
`(x :: xs).drop chunk_chars = xs.drop (chunk_chars - 1)`. -/
def chunksOf (chunk_chars : ℕ) : List Char → List (List Char)
  | [] => []
  | x :: xs => (x :: xs).take chunk_chars :: chunksOf chunk_chars (xs.drop (chunk_chars - 1))
termination_by l => l.length
decreasing_by simp; omega

/-- Number of network POSTs issued by `ModelClient.summarize_chunked`
(src/transcribe_summary.py lines 148-184) on a transcript, assuming
every POST succeeds on its first attempt (so each
`summarize_blocking` call and the final combine call issue exactly one
POST each).  At or below the threshold: one direct call.  Above it: one
call per chunk plus the combine call. -/
def summarize_chunked_posts (transcript : List Char) (chunk_chars : ℕ) : ℕ :=
  if transcript.length ≤ chunk_chars then 1
  else (chunksOf chunk_chars transcript).length + 1

/-! ## Pipeline runner (src/transcribe_summary.py, run_pipeline lines 225-288 and main lines 308-336) -/

/-- Outcome of `extract_audio_to_wav` (src/transcribe_summary.py lines
188-204) once the ffmpeg binary exists: the `subprocess.run(...,
check=True)` call either succeeds with the WAV present (`ok`), raises
`subprocess.CalledProcessError` on a non-zero exit (`exitNonZero`), or
exits zero without producing the WAV, in which case the function raises
`RuntimeError` (`noOutput`).  In every one of these cases the temporary
directory has already been created by `tempfile.mkdtemp`. -/
inductive ExtractOutcome
  | ok
  | exitNonZero
  | noOutput
deriving DecidableEq

/-- Fatal outcomes of `ModelClient.summarize_chunked` as seen by
`run_pipeline`: a non-retryable HTTP status (`SystemExit`), a non-JSON
body (`SystemExit`), or the transport error re-raised after the retry
loop is exhausted (an `httpx` exception). -/
inductive SummaryFailure
  | httpStatus (code : ℕ)
  | nonJson
  | transportExhausted (e : TransportErr)
deriving DecidableEq

/-- The environment of one `run_pipeline` invocation: whether
`load_config` parses the config (`cfgOk`), whether `resolve_ffmpeg`
finds a binary (`ffmpegFound`), the audio-extraction outcome, the text
returned by `transcribe_wav`, and the outcome of
`summarize_chunked` on that text. -/
structure PipelineEnv where
  cfgOk : Bool
  ffmpegFound : Bool
  extract : ExtractOutcome
  transcript : String
  summary : Except SummaryFailure String

/-- Observable side effects of `run_pipeline`, in program order:
`madeTmpDir` = `tempfile.mkdtemp` inside `extract_audio_to_wav`;
`wroteTranscript`/`wroteSummary`/`wroteMeta` = the three
`write_text` calls; `postedSummary` = the summary server was contacted;
`removedTmpDir` = the `shutil.rmtree(wav_path.parent)` cleanup. -/
inductive PipeEvent
  | madeTmpDir
  | wroteTranscript
  | postedSummary
  | wroteSummary
  | wroteMeta
  | removedTmpDir
deriving DecidableEq

/-- Errors escaping `run_pipeline`, tagged by cause
(src/transcribe_summary.py lines 225-288). -/
inductive PipelineErr
  | configInvalid
  | ffmpegNotFound
  | extractionFailed
  | extractionNoOutput
  | emptyTranscript
  | summaryFailed (f : SummaryFailure)
deriving DecidableEq

/-- `run_pipeline` (src/transcribe_summary.py lines 225-288): config
load, ffmpeg resolution, audio extraction, transcription, the empty-
transcript check (line 257, before any artifact is written), transcript
write (line 260), summarization (line 264), the empty-summary
placeholder `"_(empty)_"` (line 266), summary write, metadata write,
and only then the best-effort `shutil.rmtree` of the temporary audio
directory (lines 279-282) — the cleanup is NOT inside a
`try/finally`, so it runs only on the all-success path.  Returns the
ordered effect trace and the result (the written summary text on
success). -/
def run_pipeline (env : PipelineEnv) : List PipeEvent × Except PipelineErr String :=
  if env.cfgOk = false then ([], Except.error PipelineErr.configInvalid)
  else if env.ffmpegFound = false then ([], Except.error PipelineErr.ffmpegNotFound)
  else
    match env.extract with
    | ExtractOutcome.exitNonZero =>
      ([PipeEvent.madeTmpDir], Except.error PipelineErr.extractionFailed)
    | ExtractOutcome.noOutput =>
      ([PipeEvent.madeTmpDir], Except.error PipelineErr.extractionNoOutput)
    | ExtractOutcome.ok =>
      if env.transcript = "" then
        ([PipeEvent.madeTmpDir], Except.error PipelineErr.emptyTranscript)
      else
        match env.summary with
        | Except.error f =>
          ([PipeEvent.madeTmpDir, PipeEvent.wroteTranscript, PipeEvent.postedSummary],
            Except.error (PipelineErr.summaryFailed f))
        | Except.ok s =>
          ([PipeEvent.madeTmpDir, PipeEvent.wroteTranscript, PipeEvent.postedSummary,
              PipeEvent.wroteSummary, PipeEvent.wroteMeta, PipeEvent.removedTmpDir],
            Except.ok (if s = "" then "_(empty)_" else s))

/-- The Python exception class by which an error escaping
`run_pipeline` is dispatched in `main`'s `except` arms
(src/transcribe_summary.py lines 325-336). -/
inductive PyExc
  | calledProcessError
  | httpError
  | systemExit
  | otherException
deriving DecidableEq

/-- Which exception class each pipeline failure raises:
`SystemExit` for config, ffmpeg-not-found, empty transcript and the
two `SystemExit`s of `summarize_blocking`;
`subprocess.CalledProcessError` for a non-zero ffmpeg exit;
`RuntimeError` (a plain `Exception`) for a missing output WAV; the
re-raised `httpx` transport error for an exhausted retry loop. -/
def excOf : PipelineErr → PyExc
  | PipelineErr.configInvalid => PyExc.systemExit
  | PipelineErr.ffmpegNotFound => PyExc.systemExit
  | PipelineErr.extractionFailed => PyExc.calledProcessError
  | PipelineErr.extractionNoOutput => PyExc.otherException
  | PipelineErr.emptyTranscript => PyExc.systemExit
  | PipelineErr.summaryFailed (SummaryFailure.httpStatus _) => PyExc.systemExit
  | PipelineErr.summaryFailed SummaryFailure.nonJson => PyExc.systemExit
  | PipelineErr.summaryFailed (SummaryFailure.transportExhausted _) => PyExc.httpError

/-- `main` of the worker (src/transcribe_summary.py lines 308-336):
returns 2 when the input file does not exist (before running the
pipeline), 0 on success, and otherwise dispatches the escaped exception
through the `except` arms: `subprocess.CalledProcessError` gives 3,
`httpx.HTTPError` gives 4, `SystemExit` gives 5, any other `Exception`
gives 1. -/
def mainExit (inputExists : Bool) (result : Except PipelineErr String) : ℕ :=
  if inputExists = false then 2
  else
    match result with
    | Except.ok _ => 0
    | Except.error e =>
      match excOf e with
      | PyExc.calledProcessError => 3
      | PyExc.httpError => 4
      | PyExc.systemExit => 5
      | PyExc.otherException => 1

/-! ## Helper lemmas -/

/-- The chunk loop visits `ceil(len / chunk_chars)` chunks. -/
theorem chunksOf_length (c : ℕ) (hc : 0 < c) :
    ∀ l : List Char, (chunksOf c l).length = (l.length + c - 1) / c
  | [] => by
    rw [chunksOf]
    simp [Nat.div_eq_of_lt (show c - 1 < c by omega)]
  | x :: xs => by
    rw [chunksOf]
    simp only [List.length_cons, List.length_take, List.length_drop]
    rw [chunksOf_length c hc (xs.drop (c - 1))]
    simp only [List.length_drop]
    rcases le_or_lt c (xs.length + 1) with h | h
    · have h1 : xs.length - (c - 1) + c - 1 = xs.length := by omega
      have h2 : xs.length + 1 + c - 1 = xs.length + c := by omega
      rw [h1, h2, Nat.add_div_right _ hc]
    · have h1 : xs.length - (c - 1) = 0 := by omega
      have h2 : xs.length + 1 + c - 1 = xs.length + c := by omega
      rw [h1, h2, Nat.add_div_right _ hc, Nat.div_eq_of_lt (by omega),
        Nat.div_eq_of_lt (by omega)]
termination_by l => l.length
decreasing_by simp; omega

/-- The winning capture attempt is the first one whose process is still
alive, in list order. -/
theorem tryAttempts_winner (alive : VideoMode × Bool → Bool) :
    ∀ l : List (VideoMode × Bool), (tryAttempts alive l).2 = l.find? alive
  | [] => rfl
  | a :: rest => by
    rw [tryAttempts, List.find?]
    cases h : alive a
    · simp [h, tryAttempts_winner alive rest]
    · simp [h]

/-- When no attempt survives, every attempt was launched and every
launched process had already exited. -/
theorem tryAttempts_exhausted (alive : VideoMode × Bool → Bool) :
    ∀ l : List (VideoMode × Bool), (tryAttempts alive l).2 = none →
      (tryAttempts alive l).1 = l ∧ ∀ a ∈ l, alive a = false
  | [], _ => ⟨rfl, by simp⟩
  | a :: rest, h => by
    rw [tryAttempts] at h ⊢
    cases ha : alive a
    · simp only [ha, if_false, Bool.false_eq_true] at h ⊢
      obtain ⟨h1, h2⟩ := tryAttempts_exhausted alive rest h
      refine ⟨by simp [h1], ?_⟩
      intro b hb
      rcases List.mem_cons.mp hb with rfl | hb
      · exact ha
      · exact h2 b hb
    · simp [ha] at h

/-! ## Claim theorems -/

/-- C1: for every transcript, `ModelClient.summarize_chunked` issues
exactly one POST when the character length is at most the chunk
threshold, and `ceil(length / chunkSize)` chunk POSTs plus one combine
POST when it exceeds the threshold (each POST counted once, assuming
it succeeds without retry). -/
theorem C1_summarize_chunked_call_count (transcript : List Char) (c : ℕ) (hc : 0 < c) :
    (transcript.length ≤ c → summarize_chunked_posts transcript c = 1) ∧
    (c < transcript.length →
      summarize_chunked_posts transcript c = (transcript.length + c - 1) / c + 1) := by
  constructor
  · intro h
    simp [summarize_chunked_posts, h]
  · intro h
    rw [summarize_chunked_posts, if_neg (by omega), chunksOf_length c hc]

/-- Witness for C1: a 9000-character transcript with chunk size 4000
produces 3 chunk POSTs plus 1 combine POST, 4 in total. -/
theorem C1_summarize_chunked_call_count_witness :
    summarize_chunked_posts (List.replicate 9000 'a') 4000 = 4 := by
  have h := (C1_summarize_chunked_call_count (List.replicate 9000 'a') 4000
    (by norm_num)).2 (by rw [List.length_replicate]; norm_num)
  rw [h, List.length_replicate]

/-- C5: `start_ffmpeg_record` tries exactly the four attempts
(requested backend + audio, requested backend video-only, alternate
backend + audio, alternate backend video-only) in this strict order,
returns the first attempt whose process is still alive after the grace
window, and when none survives it raises with every launched process
already exited (so no capture process is left running). -/
theorem C5_capture_fallback_order :
    (∀ m, captureAttempts m =
      [(m, true), (m, false), (otherMode m, true), (otherMode m, false)]) ∧
    (∀ (alive : VideoMode × Bool → Bool) m,
      (start_ffmpeg_record alive m).2 = (captureAttempts m).find? alive) ∧
    (∀ (alive : VideoMode × Bool → Bool) m,
      (start_ffmpeg_record alive m).2 = none →
        (start_ffmpeg_record alive m).1 = captureAttempts m ∧
        ∀ a ∈ (start_ffmpeg_record alive m).1, alive a = false) := by
  refine ⟨fun _ => rfl, fun alive m => tryAttempts_winner alive _, fun alive m h => ?_⟩
  obtain ⟨h1, h2⟩ := tryAttempts_exhausted alive (captureAttempts m) h
  refine ⟨h1, ?_⟩
  intro a ha
  apply h2
  rw [← h1]
  exact ha

/-- Witness for C5: with every spawned process exiting during the grace
window, all four attempts are launched, none survives, and no process
is left running. -/
theorem C5_capture_fallback_order_witness :
    (start_ffmpeg_record (fun _ => false) VideoMode.gdigrab).2 = none ∧
    (start_ffmpeg_record (fun _ => false) VideoMode.gdigrab).1 =
      captureAttempts VideoMode.gdigrab ∧
    ∀ a ∈ (start_ffmpeg_record (fun _ => false) VideoMode.gdigrab).1,
      (fun _ : VideoMode × Bool => false) a = false := by
  have h : (start_ffmpeg_record (fun _ => false) VideoMode.gdigrab).2 = none := by decide
  obtain ⟨h1, h2⟩ :=
    C5_capture_fallback_order.2.2 (fun _ => false) VideoMode.gdigrab h
  exact ⟨h, h1, h2⟩

/-- C3: `summarize_blocking` retries a transport-level failure
(connect/read/write timeout or connection error) up to the fixed
maximum of 3 attempts with backoff sleeps of `min(2 ^ attempt, 8)`
seconds (2 s, 4 s, 8 s) and re-raises the last transport error once
exhausted; it recovers when a later attempt gets a response; and a
non-retryable HTTP status (>= 400) or a non-JSON body surfaces
immediately as a fatal `SystemExit` after a single POST with no backoff
sleep — never retried. -/
theorem C3_retry_policy :
    (∀ (net : ℕ → PostOutcome) (e1 e2 e3 : TransportErr),
      net 1 = PostOutcome.transport e1 → net 2 = PostOutcome.transport e2 →
      net 3 = PostOutcome.transport e3 →
      summarize_blocking net =
        (3, [2, 4, 8],
          Except.error (SummarizeError.exhausted (RetryExhausted.transport e3)))) ∧
    (∀ (net : ℕ → PostOutcome) (e1 : TransportErr) (r : HttpResponse),
      net 1 = PostOutcome.transport e1 → net 2 = PostOutcome.response r →
      r.status < 400 → r.jsonOk = true →
      summarize_blocking net = (2, [2], Except.ok ((r.textResponse.getD "").trim))) ∧
    (∀ (net : ℕ → PostOutcome) (r : HttpResponse),
      net 1 = PostOutcome.response r → 400 ≤ r.status →
      summarize_blocking net =
        (1, [], Except.error (SummarizeError.httpStatus r.status))) ∧
    (∀ (net : ℕ → PostOutcome) (r : HttpResponse),
      net 1 = PostOutcome.response r → r.status < 400 → r.jsonOk = false →
      summarize_blocking net = (1, [], Except.error SummarizeError.nonJson)) := by
  refine ⟨?_, ?_, ?_, ?_⟩
  · intro net e1 e2 e3 h1 h2 h3
    simp [summarize_blocking, post_with_retries, retryLoop, h1, h2, h3]
  · intro net e1 r h1 h2 hs hj
    simp [summarize_blocking, post_with_retries, retryLoop, h1, h2,
      if_neg (by omega : ¬ 400 ≤ r.status), hj]
  · intro net r h1 hs
    simp [summarize_blocking, post_with_retries, retryLoop, h1, if_pos hs]
  · intro net r h1 hs hj
    simp [summarize_blocking, post_with_retries, retryLoop, h1,
      if_neg (by omega : ¬ 400 ≤ r.status), hj]

/-- Witness for C3: a permanently failing transport errors out after
exactly 3 POSTs and sleeps of 2 s, 4 s, 8 s; an immediate HTTP 500
response is fatal after one POST with no retry. -/
theorem C3_retry_policy_witness :
    summarize_blocking (fun _ => PostOutcome.transport TransportErr.connectTimeout) =
      (3, [2, 4, 8],
        Except.error
          (SummarizeError.exhausted (RetryExhausted.transport TransportErr.connectTimeout))) ∧
    summarize_blocking (fun _ => PostOutcome.response ⟨500, true, none⟩) =
      (1, [], Except.error (SummarizeError.httpStatus 500)) :=
  ⟨C3_retry_policy.1 _ _ _ _ rfl rfl rfl,
    C3_retry_policy.2.2.1 _ ⟨500, true, none⟩ rfl (by norm_num)⟩

/-- On an absent sample the update clears `back_start` first, so the
post-state always has `back = none`. -/
theorem gateStep_absent_back (mA mB : ℚ) (ok : Bool) (s : GateState) (t : ℚ) :
    (gateStep mA mB ok s false t).1.back = none := by
  rcases s with ⟨away, back, rec⟩
  cases rec <;> cases away <;> simp [gateStep] <;> (repeat' split) <;>
    first | rfl | assumption | simp_all

/-- On a present sample the update clears `away_start` first, so the
post-state always has `away = none`. -/
theorem gateStep_present_away (mA mB : ℚ) (ok : Bool) (s : GateState) (t : ℚ) :
    (gateStep mA mB ok s true t).1.away = none := by
  rcases s with ⟨away, back, rec⟩
  cases rec <;> cases back <;> simp [gateStep] <;> (repeat' split) <;>
    first | rfl | assumption | simp_all

/-- On an absent sample, `away_start` is either preserved or freshly
set to the sample time (when it was unset); it is never cleared. -/
theorem gateStep_absent_away (mA mB : ℚ) (ok : Bool) (s : GateState) (t : ℚ) :
    (gateStep mA mB ok s false t).1.away = s.away ∨
      ((gateStep mA mB ok s false t).1.away = some t ∧ s.away = none) := by
  rcases s with ⟨away, back, rec⟩
  cases rec <;> cases away <;> simp [gateStep] <;> (repeat' split) <;>
    first | rfl | assumption | simp_all

/-- On a present sample, `back_start` is either preserved or freshly
set to the sample time (when it was unset); it is never cleared. -/
theorem gateStep_present_back (mA mB : ℚ) (ok : Bool) (s : GateState) (t : ℚ) :
    (gateStep mA mB ok s true t).1.back = s.back ∨
      ((gateStep mA mB ok s true t).1.back = some t ∧ s.back = none) := by
  rcases s with ⟨away, back, rec⟩
  cases rec <;> cases back <;> simp [gateStep] <;> (repeat' split) <;>
    first | rfl | assumption | simp_all

/-- A `startRequested` event can only fire on an absent sample with the
away timer armed at some `a` satisfying `(now - a) * 1000 >=
min_away_ms`. -/
theorem gateStep_start_fire (mA mB : ℚ) (ok : Bool) (s : GateState) (p : Bool) (t : ℚ)
    (h : (gateStep mA mB ok s p t).2 = GateEvent.startRequested) :
    p = false ∧ ∃ a, s.away = some a ∧ (t - a) * 1000 ≥ mA := by
  rcases s with ⟨away, back, rec⟩
  cases p <;> cases rec <;> rcases away with _ | a <;> rcases back with _ | b <;>
    simp [gateStep] at h ⊢ <;> revert h <;> (repeat' split) <;>
    first | assumption | simp_all

/-- A `stopRequested` event can only fire on a present sample with the
back timer armed at some `b` satisfying `(now - b) * 1000 >=
return_ms`. -/
theorem gateStep_stop_fire (mA mB : ℚ) (ok : Bool) (s : GateState) (p : Bool) (t : ℚ)
    (h : (gateStep mA mB ok s p t).2 = GateEvent.stopRequested) :
    p = true ∧ ∃ b, s.back = some b ∧ (t - b) * 1000 ≥ mB := by
  rcases s with ⟨away, back, rec⟩
  cases p <;> cases rec <;> rcases away with _ | a <;> rcases back with _ | b <;>
    simp [gateStep] at h ⊢ <;> revert h <;> (repeat' split) <;>
    first | assumption | simp_all

/-- When capture start always fails, an idle state stays idle through
any single update. -/
theorem gateStep_idle_stays (mA mB : ℚ) (s : GateState) (p : Bool) (t : ℚ)
    (hr : s.recording = false) :
    (gateStep mA mB false s p t).1.recording = false := by
  rcases s with ⟨away, back, rec⟩
  simp at hr
  subst hr
  cases p <;> rcases away with _ | a <;> rcases back with _ | b <;>
    simp [gateStep] <;> (repeat' split) <;> first | rfl | assumption | simp_all

/-- When capture start always fails, the loop never sets
`recording = True` from an idle state. -/
theorem loopRun_idle_stays (mA mB : ℚ) :
    ∀ (xs : List (Bool × ℚ)) (s : GateState), s.recording = false →
      (loopRun mA mB false s xs).1.recording = false
  | [], _, hr => hr
  | (p, t) :: rest, s, hr => by
    have hstep := gateStep_idle_stays mA mB s p t hr
    rw [loopRun]
    cases he : (gateStep mA mB false s p t).2 <;> simp only [he] <;>
      first
      | exact hstep
      | exact loopRun_idle_stays mA mB rest _ hstep

/-- C2 (amended): after every per-sample update of the hysteresis state
machine, at most one of `away_start`/`back_start` is non-null (this
half of the claimed invariant holds from any prior state, so it also
covers the manual-override path that mutates the state before the
update); the other half of the claimed invariant — recording implies
`away_start` is null — is false on the code, see the
counterexample. -/
theorem C2_gate_invariant_amended (mA mB : ℚ) (ok : Bool) (s : GateState)
    (p : Bool) (t : ℚ) :
    (gateStep mA mB ok s p t).1.away = none ∨
      (gateStep mA mB ok s p t).1.back = none := by
  cases p
  · exact Or.inr (gateStep_absent_back mA mB ok s t)
  · exact Or.inl (gateStep_present_away mA mB ok s t)

/-- Counterexample for C2: two absent samples at t = 0 s and t = 1 s
with `min_away_ms = 800` drive the machine through its Idle→Recording
transition, after which `recording = True` while `away_start` is still
`some 0` — the claimed invariant `isRecording → awaySince = null` is
violated by the state the code actually reaches. -/
theorem C2_gate_invariant_counterexample :
    ¬ gateInv (loopRun 800 1000 true gateInit [(false, 0), (false, 1)]).1 := by
  have h : (loopRun 800 1000 true gateInit [(false, 0), (false, 1)]).1 =
      ⟨some 0, none, true⟩ := by
    norm_num [loopRun, gateStep, gateInit]
  rw [h, gateInv]
  simp

/-- C6 (amended): when capture start fails on a StartRequested event,
the controller logs the failure and never enters Recording
(`recording` stays `False`), but the presence-monitoring loop does NOT
keep running: the `break` on the failure path exits the loop
immediately, leaving all later samples unprocessed, so no future arm
can retry within this invocation. -/
theorem C6_capture_start_failure_amended :
    (∀ (mA mB : ℚ) (xs : List (Bool × ℚ)),
      (loopRun mA mB false gateInit xs).1.recording = false) ∧
    (∀ (mA mB : ℚ) (ok : Bool) (s : GateState) (p : Bool) (t : ℚ)
        (rest : List (Bool × ℚ)),
      (gateStep mA mB ok s p t).2 = GateEvent.startFailed →
      loopRun mA mB ok s ((p, t) :: rest) = ((gateStep mA mB ok s p t).1, 1)) := by
  constructor
  · intro mA mB xs
    exact loopRun_idle_stays mA mB xs gateInit rfl
  · intro mA mB ok s p t rest h
    rw [loopRun]
    simp only [h]

/-- Witness for C6 (amended): with the away timer armed at t = 0 and a
failing capture start, the sample at t = 1 s (threshold 800 ms) fires,
the loop consumes exactly that one sample and exits, leaving the
trailing sample unprocessed. -/
theorem C6_capture_start_failure_witness :
    loopRun 800 1000 false ⟨some 0, none, false⟩ [(false, 1), (false, 2)] =
      ((gateStep 800 1000 false ⟨some 0, none, false⟩ false 1).1, 1) :=
  C6_capture_start_failure_amended.2 800 1000 false ⟨some 0, none, false⟩ false 1
    [(false, 2)] (by norm_num [gateStep])

/-- Counterexample for C6: with capture start always failing and three
absent samples at t = 0, 1, 2 s (threshold 800 ms), the loop consumes
only 2 of the 3 samples — it breaks out at the failed start instead of
keeping the presence-monitoring loop running — while indeed never
entering Recording. -/
theorem C6_capture_start_failure_counterexample :
    (loopRun 800 1000 false gateInit [(false, 0), (false, 1), (false, 2)]).2 = 2 ∧
    (loopRun 800 1000 false gateInit
      [(false, 0), (false, 1), (false, 2)]).1.recording = false := by
  norm_num [loopRun, gateStep, gateInit]

/-- One update preserves the away-timer history invariant. -/
theorem awaySuffix_step (mA mB : ℚ) (ok : Bool) (s : GateState) (p : Bool) (t : ℚ)
    (hist : List (Bool × ℚ)) (hinv : AwaySuffix hist s) :
    AwaySuffix (hist ++ [(p, t)]) (gateStep mA mB ok s p t).1 := by
  cases p
  · rcases gateStep_absent_away mA mB ok s t with heq | ⟨heq, hnone⟩
    · intro a ha
      rw [heq] at ha
      obtain ⟨ys, zs, hsplit, hhead, hall⟩ := hinv a ha
      refine ⟨ys, zs ++ [(false, t)], by rw [hsplit, List.append_assoc], ?_, ?_⟩
      · cases zs with
        | nil => simp at hhead
        | cons z zs' => simpa using hhead
      · intro x hx
        rcases List.mem_append.mp hx with hx | hx
        · exact hall x hx
        · simp at hx
          rw [hx]
    · intro a ha
      rw [heq] at ha
      obtain rfl : t = a := Option.some.inj ha
      exact ⟨hist, [(false, t)], rfl, rfl, by simp⟩
  · intro a ha
    rw [gateStep_present_away mA mB ok s t] at ha
    simp at ha

/-- One update preserves the back-timer history invariant. -/
theorem backSuffix_step (mA mB : ℚ) (ok : Bool) (s : GateState) (p : Bool) (t : ℚ)
    (hist : List (Bool × ℚ)) (hinv : BackSuffix hist s) :
    BackSuffix (hist ++ [(p, t)]) (gateStep mA mB ok s p t).1 := by
  cases p
  · intro b hb
    rw [gateStep_absent_back mA mB ok s t] at hb
    simp at hb
  · rcases gateStep_present_back mA mB ok s t with heq | ⟨heq, hnone⟩
    · intro b hb
      rw [heq] at hb
      obtain ⟨ys, zs, hsplit, hhead, hall⟩ := hinv b hb
      refine ⟨ys, zs ++ [(true, t)], by rw [hsplit, List.append_assoc], ?_, ?_⟩
      · cases zs with
        | nil => simp at hhead
        | cons z zs' => simpa using hhead
      · intro x hx
        rcases List.mem_append.mp hx with hx | hx
        · exact hall x hx
        · simp at hx
          rw [hx]
    · intro b hb
      rw [heq] at hb
      obtain rfl : t = b := Option.some.inj hb
      exact ⟨hist, [(true, t)], rfl, rfl, by simp⟩

/-- Trace safety for starts: wherever the run emits `startRequested`,
the samples processed so far end in a continuous absent run spanning at
least `min_away_ms`. -/
theorem gateEvents_start_safe (mA mB : ℚ) (ok : Bool) :
    ∀ (xs : List (Bool × ℚ)) (s : GateState) (hist : List (Bool × ℚ)),
      AwaySuffix hist s →
      ∀ i : ℕ, (gateEvents mA mB ok s xs)[i]? = some GateEvent.startRequested →
      AbsentRunEnding mA (hist ++ xs.take (i + 1))
  | [], s, hist, hinv, i, h => by simp [gateEvents] at h
  | (p, t) :: rest, s, hist, hinv, i, h => by
    rw [gateEvents] at h
    match i with
    | 0 =>
      simp only [List.getElem?_cons_zero, Option.some.injEq] at h
      obtain ⟨hp, a, ha, hge⟩ := gateStep_start_fire mA mB ok s p t h
      obtain ⟨ys, zs, hsplit, hhead, hall⟩ := hinv a ha
      subst hp
      simp only [List.take_succ_cons, List.take_zero]
      refine ⟨ys, zs ++ [(false, t)], a, t,
        by rw [hsplit, List.append_assoc], ?_, ?_, by simp, hge⟩
      · cases zs with
        | nil => simp at hhead
        | cons z zs' => simpa using hhead
      · intro x hx
        rcases List.mem_append.mp hx with hx | hx
        · exact hall x hx
        · simp at hx
          rw [hx]
    | Nat.succ j =>
      simp only [List.getElem?_cons_succ] at h
      have hinv' := awaySuffix_step mA mB ok s p t hist hinv
      have hrec := gateEvents_start_safe mA mB ok rest (gateStep mA mB ok s p t).1
        (hist ++ [(p, t)]) hinv' j h
      rw [List.take_succ_cons]
      simpa [List.append_assoc] using hrec

/-- Trace safety for stops: wherever the run emits `stopRequested`, the
samples processed so far end in a continuous present run spanning at
least `return_ms`. -/
theorem gateEvents_stop_safe (mA mB : ℚ) (ok : Bool) :
    ∀ (xs : List (Bool × ℚ)) (s : GateState) (hist : List (Bool × ℚ)),
      BackSuffix hist s →
      ∀ i : ℕ, (gateEvents mA mB ok s xs)[i]? = some GateEvent.stopRequested →
      PresentRunEnding mB (hist ++ xs.take (i + 1))
  | [], s, hist, hinv, i, h => by simp [gateEvents] at h
  | (p, t) :: rest, s, hist, hinv, i, h => by
    rw [gateEvents] at h
    match i with
    | 0 =>
      simp only [List.getElem?_cons_zero, Option.some.injEq] at h
      obtain ⟨hp, b, hb, hge⟩ := gateStep_stop_fire mA mB ok s p t h
      obtain ⟨ys, zs, hsplit, hhead, hall⟩ := hinv b hb
      subst hp
      simp only [List.take_succ_cons, List.take_zero]
      refine ⟨ys, zs ++ [(true, t)], b, t,
        by rw [hsplit, List.append_assoc], ?_, ?_, by simp, hge⟩
      · cases zs with
        | nil => simp at hhead
        | cons z zs' => simpa using hhead
      · intro x hx
        rcases List.mem_append.mp hx with hx | hx
        · exact hall x hx
        · simp at hx
          rw [hx]
    | Nat.succ j =>
      simp only [List.getElem?_cons_succ] at h
      have hinv' := backSuffix_step mA mB ok s p t hist hinv
      have hrec := gateEvents_stop_safe mA mB ok rest (gateStep mA mB ok s p t).1
        (hist ++ [(p, t)]) hinv' j h
      rw [List.take_succ_cons]
      simpa [List.append_assoc] using hrec

/-- The spec's end-to-end scenario evaluated on the state machine:
no event for samples 0-15, `startRequested` at sample 16 (t = 0.8 s),
no event for samples 17-39, `stopRequested` at sample 40 (t = 2 s,
1000 ms after presence returned at t = 1 s), no event after. -/
theorem scenario_event_trace :
    gateEvents 800 1000 true gateInit scenarioSamples =
      List.replicate 16 GateEvent.noEvent ++ [GateEvent.startRequested] ++
        List.replicate 23 GateEvent.noEvent ++ [GateEvent.stopRequested] ++
        List.replicate 4 GateEvent.noEvent := by
  norm_num [scenarioSamples, List.range_succ, gateEvents, gateStep, gateInit,
    List.replicate]

/-- C4: for all presence-sample sequences, the hysteresis gate never
emits StartRequested (the Idle→Recording transition) unless the
processed samples end in a continuous run of absent samples spanning at
least `min_away_ms`, and never emits StopRequested (Recording→Idle)
unless they end in a continuous run of present samples spanning at
least `return_ms`; and on the spec's scenario (20 absent samples at
50 ms spacing with `min_away_ms = 800`, then 25 present samples at
50 ms spacing with `return_ms = 1000`) StartRequested fires exactly at
sample 16 (t = 800 ms) and StopRequested exactly at sample 20 of the
present phase (global sample 40, 1000 ms after presence returned). -/
theorem C4_hysteresis_gate_safety :
    (∀ (mA mB : ℚ) (ok : Bool) (xs : List (Bool × ℚ)) (i : ℕ),
      (gateEvents mA mB ok gateInit xs)[i]? = some GateEvent.startRequested →
      AbsentRunEnding mA (xs.take (i + 1))) ∧
    (∀ (mA mB : ℚ) (ok : Bool) (xs : List (Bool × ℚ)) (i : ℕ),
      (gateEvents mA mB ok gateInit xs)[i]? = some GateEvent.stopRequested →
      PresentRunEnding mB (xs.take (i + 1))) ∧
    gateEvents 800 1000 true gateInit scenarioSamples =
      List.replicate 16 GateEvent.noEvent ++ [GateEvent.startRequested] ++
        List.replicate 23 GateEvent.noEvent ++ [GateEvent.stopRequested] ++
        List.replicate 4 GateEvent.noEvent := by
  refine ⟨?_, ?_, scenario_event_trace⟩
  · intro mA mB ok xs i h
    have hrun := gateEvents_start_safe mA mB ok xs gateInit []
      (by intro a ha; simp [gateInit] at ha) i h
    simpa using hrun
  · intro mA mB ok xs i h
    have hrun := gateEvents_stop_safe mA mB ok xs gateInit []
      (by intro b hb; simp [gateInit] at hb) i h
    simpa using hrun

/-- Witness for C4: at the scenario's StartRequested (sample 16) the
first 17 samples end in an 800 ms absent run, and at its StopRequested
(global sample 40) the first 41 samples end in a 1000 ms present
run. -/
theorem C4_hysteresis_gate_safety_witness :
    AbsentRunEnding 800 (scenarioSamples.take 17) ∧
    PresentRunEnding 1000 (scenarioSamples.take 41) := by
  constructor
  · exact C4_hysteresis_gate_safety.1 800 1000 true scenarioSamples 16
      (by rw [scenario_event_trace]; rfl)
  · exact C4_hysteresis_gate_safety.2.1 800 1000 true scenarioSamples 40
      (by rw [scenario_event_trace]; rfl)

/-- C7: when the transcriber yields empty text, `run_pipeline` stops
with the dedicated empty-transcript outcome, contacts no network
endpoint, and writes neither a summary nor a metadata artifact (nor the
transcript artifact, whose write comes after the check). -/
theorem C7_empty_transcript_stops (env : PipelineEnv) (hc : env.cfgOk = true)
    (hf : env.ffmpegFound = true) (he : env.extract = ExtractOutcome.ok)
    (ht : env.transcript = "") :
    run_pipeline env = ([PipeEvent.madeTmpDir], Except.error PipelineErr.emptyTranscript) ∧
    PipeEvent.postedSummary ∉ (run_pipeline env).1 ∧
    PipeEvent.wroteSummary ∉ (run_pipeline env).1 ∧
    PipeEvent.wroteMeta ∉ (run_pipeline env).1 := by
  have hrun : run_pipeline env =
      ([PipeEvent.madeTmpDir], Except.error PipelineErr.emptyTranscript) := by
    rw [run_pipeline, hc, hf, he, if_neg (by simp), ht]
    simp
  refine ⟨hrun, ?_, ?_, ?_⟩ <;> rw [hrun] <;> simp

/-- Witness for C7: a concrete environment whose transcription yields
the empty string reaches exactly the empty-transcript outcome with no
summary POST and no summary/metadata write. -/
theorem C7_empty_transcript_stops_witness :
    run_pipeline ⟨true, true, ExtractOutcome.ok, "", Except.ok "s"⟩ =
      ([PipeEvent.madeTmpDir], Except.error PipelineErr.emptyTranscript) ∧
    PipeEvent.postedSummary ∉
      (run_pipeline ⟨true, true, ExtractOutcome.ok, "", Except.ok "s"⟩).1 ∧
    PipeEvent.wroteSummary ∉
      (run_pipeline ⟨true, true, ExtractOutcome.ok, "", Except.ok "s"⟩).1 ∧
    PipeEvent.wroteMeta ∉
      (run_pipeline ⟨true, true, ExtractOutcome.ok, "", Except.ok "s"⟩).1 :=
  C7_empty_transcript_stops ⟨true, true, ExtractOutcome.ok, "", Except.ok "s"⟩
    rfl rfl rfl rfl

/-- C8 (amended): the temporary normalized-audio directory created by
`extract_audio_to_wav` is removed only when the run fully succeeds (the
`shutil.rmtree` sits after the metadata write, outside any
`try/finally`); on every failure path — including empty transcript and
a fatal summarization error — the directory is left behind. -/
theorem C8_tmpdir_cleanup_amended (env : PipelineEnv) :
    PipeEvent.removedTmpDir ∈ (run_pipeline env).1 ↔
      ∃ s, (run_pipeline env).2 = Except.ok s := by
  rcases env with ⟨cfgOk, ffmpegFound, extract, transcript, summary⟩
  cases cfgOk <;> cases ffmpegFound <;> cases extract <;> rcases summary with f | s <;>
    by_cases ht : transcript = "" <;> simp [run_pipeline, ht]

/-- Counterexample for C8: a run that gets past audio extraction and
then stops on an empty transcript has created the temporary directory
but never removes it before the run ends — cleanup is not performed
regardless of success or failure. -/
theorem C8_tmpdir_cleanup_counterexample :
    PipeEvent.madeTmpDir ∈
      (run_pipeline ⟨true, true, ExtractOutcome.ok, "",
        Except.error (SummaryFailure.httpStatus 500)⟩).1 ∧
    PipeEvent.removedTmpDir ∉
      (run_pipeline ⟨true, true, ExtractOutcome.ok, "",
        Except.error (SummaryFailure.httpStatus 500)⟩).1 := by
  constructor <;> simp [run_pipeline]

/-- C9 (amended): the worker exits 0 on success, 2 on input-not-found,
3 on a transcoding failure signalled by a non-zero ffmpeg exit
(`subprocess.CalledProcessError`), 4 on a transport-level network error
(`httpx.HTTPError`), 5 on every `SystemExit` failure (configuration
error, ffmpeg-not-found, empty transcript, non-retryable HTTP status,
non-JSON body), and 1 on any other exception — including a transcoding
failure where ffmpeg exits zero without producing the WAV, which
raises `RuntimeError` and is therefore indistinguishable from an
unexpected error by exit code. -/
theorem C9_exit_codes_amended :
    (∀ r : Except PipelineErr String, mainExit false r = 2) ∧
    (∀ s : String, mainExit true (Except.ok s) = 0) ∧
    mainExit true (Except.error PipelineErr.extractionFailed) = 3 ∧
    (∀ e, mainExit true
      (Except.error (PipelineErr.summaryFailed (SummaryFailure.transportExhausted e))) = 4) ∧
    mainExit true (Except.error PipelineErr.configInvalid) = 5 ∧
    mainExit true (Except.error PipelineErr.ffmpegNotFound) = 5 ∧
    mainExit true (Except.error PipelineErr.emptyTranscript) = 5 ∧
    (∀ c, mainExit true
      (Except.error (PipelineErr.summaryFailed (SummaryFailure.httpStatus c))) = 5) ∧
    mainExit true (Except.error (PipelineErr.summaryFailed SummaryFailure.nonJson)) = 5 ∧
    mainExit true (Except.error PipelineErr.extractionNoOutput) = 1 :=
  ⟨fun _ => rfl, fun _ => rfl, rfl, fun _ => rfl, rfl, rfl, rfl, fun _ => rfl, rfl, rfl⟩

/-- Counterexample for C9: a transcoding failure in which ffmpeg exits
zero but produces no output WAV (the spec's `ExtractionFailed` class
explicitly includes "produces no output file") exits with code 1 — the
same code as the generic unexpected-error arm — while a non-zero
ffmpeg exit gives 3, so the transcoding-failure class does not map to
one distinct exit code and cannot be distinguished from an unexpected
error by exit code alone. -/
theorem C9_exit_codes_counterexample :
    mainExit true
      (run_pipeline ⟨true, true, ExtractOutcome.noOutput, "t", Except.ok "s"⟩).2 = 1 ∧
    mainExit true
      (run_pipeline ⟨true, true, ExtractOutcome.exitNonZero, "t", Except.ok "s"⟩).2 = 3 ∧
    excOf PipelineErr.extractionNoOutput = PyExc.otherException := by
  refine ⟨?_, ?_, rfl⟩ <;> simp [run_pipeline, mainExit, excOf]

/-- C10: `run_pipeline` writes the transcript artifact before
contacting the summary server, so when summarization fails fatally
(non-retryable HTTP status, non-JSON body, or exhausted transport
retries) the already-written transcript remains while neither the
summary nor the metadata artifact is written. -/
theorem C10_transcript_persists_on_summary_failure (env : PipelineEnv)
    (f : SummaryFailure) (hc : env.cfgOk = true) (hf : env.ffmpegFound = true)
    (he : env.extract = ExtractOutcome.ok) (ht : env.transcript ≠ "")
    (hs : env.summary = Except.error f) :
    run_pipeline env =
      ([PipeEvent.madeTmpDir, PipeEvent.wroteTranscript, PipeEvent.postedSummary],
        Except.error (PipelineErr.summaryFailed f)) ∧
    PipeEvent.wroteTranscript ∈ (run_pipeline env).1 ∧
    PipeEvent.wroteSummary ∉ (run_pipeline env).1 ∧
    PipeEvent.wroteMeta ∉ (run_pipeline env).1 ∧
    (run_pipeline env).1.indexOf PipeEvent.wroteTranscript <
      (run_pipeline env).1.indexOf PipeEvent.postedSummary := by
  have hrun : run_pipeline env =
      ([PipeEvent.madeTmpDir, PipeEvent.wroteTranscript, PipeEvent.postedSummary],
        Except.error (PipelineErr.summaryFailed f)) := by
    rw [run_pipeline, hc, hf, he, hs]
    simp [ht]
  refine ⟨hrun, ?_, ?_, ?_, ?_⟩ <;> rw [hrun] <;>
    first
    | simp
    | (simp [List.indexOf, List.findIdx_cons]; decide)

/-- Witness for C10: with a non-JSON summary response, the concrete run
keeps the transcript artifact, writes no summary or metadata, and the
transcript write precedes the summary POST. -/
theorem C10_transcript_persists_on_summary_failure_witness :
    run_pipeline ⟨true, true, ExtractOutcome.ok, "t", Except.error SummaryFailure.nonJson⟩ =
      ([PipeEvent.madeTmpDir, PipeEvent.wroteTranscript, PipeEvent.postedSummary],
        Except.error (PipelineErr.summaryFailed SummaryFailure.nonJson)) ∧
    PipeEvent.wroteTranscript ∈
      (run_pipeline ⟨true, true, ExtractOutcome.ok, "t",
        Except.error SummaryFailure.nonJson⟩).1 ∧
    PipeEvent.wroteSummary ∉
      (run_pipeline ⟨true, true, ExtractOutcome.ok, "t",
        Except.error SummaryFailure.nonJson⟩).1 ∧
    PipeEvent.wroteMeta ∉
      (run_pipeline ⟨true, true, ExtractOutcome.ok, "t",
        Except.error SummaryFailure.nonJson⟩).1 ∧
    (run_pipeline ⟨true, true, ExtractOutcome.ok, "t",
        Except.error SummaryFailure.nonJson⟩).1.indexOf PipeEvent.wroteTranscript <
      (run_pipeline ⟨true, true, ExtractOutcome.ok, "t",
        Except.error SummaryFailure.nonJson⟩).1.indexOf PipeEvent.postedSummary :=
  C10_transcript_persists_on_summary_failure
    ⟨true, true, ExtractOutcome.ok, "t", Except.error SummaryFailure.nonJson⟩
    SummaryFailure.nonJson rfl rfl rfl (by decide) rfl
